import Mathlib

/-!
# Verification of the Lilly CRUD Repository / routing layer

A shallow embedding of the `lilly` repository's original logic:

* `lilly/repositories/base.py` — the generic `Repository` contract
  (acquire a scoped connection, delegate to a store primitive, convert
  records to DTOs, release the connection);
* `lilly/repositories/sqlalchemy.py` — the `SQLAlchemyRepository` store
  adapter (criteria coercion, affected-record computation, bulk
  insert/update/delete);
* `lilly/routing/_crud.py` — the CRUD route-set generator
  (`_generate_crud_route_set`, `_remove_routes_for_undefined_actions`,
  `_extract_sql_query_string`);
* `lilly/datasources/sqlalchemy.py` — the `SQLAlchemyDataSource`
  lifecycle (lazy schema initialization, `clear_db`).

The persistent store is modelled as a list of records ordered by
insertion (the rowid order SQLite returns for the plain queries issued
here).  The record/DTO types mirror the single model used throughout the
repository's test-suite: `NameTest(id: Integer primary key, title: String)`
with DTOs `NameTestDTO(id, title)` and `NameTestCreationDTO(title)`.
-/

set_option autoImplicit false

namespace Lilly

/-- A store-native record: one row of the `names` table
(`id` integer primary key, `title` string). -/
structure NameRecord where
  id : Nat
  title : String
deriving DecidableEq, Repr

/-- Output DTO (`NameTestDTO` in the tests): full external representation. -/
structure NameTestDTO where
  id : Nat
  title : String
deriving DecidableEq, Repr

/-- Creation / partial-update DTO (`NameTestCreationDTO`): carries only `title`. -/
structure NameTestCreationDTO where
  title : String
deriving DecidableEq, Repr

/-- The database contents reachable through one connection: rows in
insertion (rowid) order. -/
abbrev Session := List NameRecord

/-- A value of a model field, as carried by a DTO `.dict()` or a filter set. -/
inductive FieldVal where
  | natV (n : Nat)
  | strV (s : String)
deriving DecidableEq, Repr

/-- Embeds `**filters`: a mapping from field name to required equality value. -/
abbrev Filters := List (String × FieldVal)

/-- One positional criterion as accepted by the repository operations:
either an SQLAlchemy SQL-expression object (semantically, a predicate on
records) or a raw text string (wrapped by the adapter in `text(...)`). -/
inductive Criterion where
  | expr (p : NameRecord → Bool)
  | raw (s : String)

/-! ## Character-list helpers used to give semantics to raw text criteria -/

/-- Predicate `beginsWith s t`: holds when `t` is an initial segment of `s`. -/
def beginsWith : List Char → List Char → Bool
  | _, [] => true
  | [], _ :: _ => false
  | a :: s, b :: t => a == b && beginsWith s t

/-- Predicate `containsSeq s sub`: holds when `sub` occurs contiguously inside `s`
(the semantics of SQL `LIKE '%sub%'` on a non-NULL text value). -/
def containsSeq (s sub : List Char) : Bool :=
  match s with
  | [] => sub.isEmpty
  | _ :: t => beginsWith s sub || containsSeq t sub

/-- Split a character list on every space character. -/
def splitOnSpace (cs : List Char) : List (List Char) :=
  match cs with
  | [] => [[]]
  | c :: t =>
    let rest := splitOnSpace t
    if c = ' ' then [] :: rest
    else
      match rest with
      | [] => [[c]]
      | w :: ws => (c :: w) :: ws

/-- Read a decimal numeral. -/
def charsToNat? (cs : List Char) : Option Nat :=
  match cs with
  | [] => none
  | _ =>
    cs.foldl
      (fun acc c =>
        match acc with
        | none => none
        | some n => if '0' ≤ c ∧ c ≤ '9' then some (n * 10 + (c.toNat - '0'.toNat)) else none)
      (some 0)

/-- Strip the surrounding `'%` … `%'` of a quoted LIKE pattern
(`'%doe%'` becomes `doe`); `none` when the token has another shape. -/
def likeInner (v : List Char) : Option (List Char) :=
  if 4 ≤ v.length ∧ v.take 2 = ['\'', '%'] ∧ v.drop (v.length - 2) = ['%', '\''] then
    some ((v.drop 2).take (v.length - 4))
  else none

/-- The text rendering of a record field for LIKE matching; only the
string-searchable field `title` of the repository's model is matchable. -/
def fieldLikeText (f : List Char) (r : NameRecord) : Option (List Char) :=
  if f = "title".data then some r.title.data else none

/-- Semantics SQLite gives to the raw text WHERE clauses that this
repository constructs and that its test-suite issues: numeric
comparisons on the primary key (`id > 2`, …) and substring matching on
the searchable text field (`title LIKE '%doe%'`).  Other shapes are out
of this model's scope and match nothing. -/
def evalTextClause (s : String) (r : NameRecord) : Bool :=
  match splitOnSpace s.data with
  | [f, op, v] =>
    if op = "LIKE".data then
      match fieldLikeText f r, likeInner v with
      | some fv, some pat => containsSeq fv pat
      | _, _ => false
    else if f = "id".data then
      match charsToNat? v with
      | some n =>
        if op = ['>'] then decide (n < r.id)
        else if op = ['<'] then decide (r.id < n)
        else if op = ['>', '='] then decide (n ≤ r.id)
        else if op = ['<', '='] then decide (r.id ≤ n)
        else if op = ['='] then r.id == n
        else false
      | none => false
    else false
  | _ => false

/-- The predicate denoted by one criterion; a raw string gets the
semantics of `text(...)` inside a WHERE clause. -/
def Criterion.toPred : Criterion → (NameRecord → Bool)
  | .expr p => p
  | .raw s => evalTextClause s

/-- The `filter_by` equality semantics for one `field=value` pair. -/
def evalFilter (r : NameRecord) : String × FieldVal → Bool
  | ("id", .natV n) => r.id == n
  | ("title", .strV s) => r.title == s
  | _ => false

/-- Model of `setattr(record, field, value)` for one `(field, value)` pair of the
model's columns; other names leave the record unchanged (no other name
is ever passed in this repository). -/
def setField (r : NameRecord) : String × FieldVal → NameRecord
  | ("id", .natV n) => { r with id := n }
  | ("title", .strV s) => { r with title := s }
  | _ => r

/-- Model of `iter(NameTestDTO)` / `.dict()`: fields in declaration order. -/
def NameTestDTO.dict (d : NameTestDTO) : List (String × FieldVal) :=
  [("id", .natV d.id), ("title", .strV d.title)]

/-- Model of `NameTestCreationDTO.dict()`: only the `title` field. -/
def NameTestCreationDTO.dict (d : NameTestCreationDTO) : List (String × FieldVal) :=
  [("title", .strV d.title)]

namespace SQLAlchemyRepository

/-- Model of `__coerce_string_criteria`: wrap every string criterion in `text(...)`
— i.e. give it its raw-SQL predicate semantics — and pass SQL-expression
criteria through. -/
def coerce_string_criteria (criteria : List Criterion) : List (NameRecord → Bool) :=
  criteria.map Criterion.toPred

/-- The WHERE clause shared by the SELECT and the bulk UPDATE/DELETE
statements: `.filter(*coerced).filter_by(**filters)`, all conjoined. -/
def stmt_matches (coerced : List (NameRecord → Bool)) (filters : Filters)
    (r : NameRecord) : Bool :=
  coerced.all (fun p => p r) && filters.all (evalFilter r)

/-- Model of `_update_orm_instance`: set every field of `new_data` on the record,
in order, and return it. -/
def update_orm_instance (r : NameRecord) (new_data : List (String × FieldVal)) : NameRecord :=
  new_data.foldl setField r

/-- The id SQLite assigns to the next inserted row of this table
(integer primary key: one more than the current maximum). -/
def next_id (db : Session) : Nat :=
  db.foldl (fun m r => max m r.id) 0 + 1

/-- Rows created by a bulk insert: consecutive generated ids from `start`. -/
def assign_ids (start : Nat) : List NameTestCreationDTO → List NameRecord
  | [] => []
  | d :: t => ⟨start, d.title⟩ :: assign_ids (start + 1) t

/-- Model of `_get_one`: `session.query(model).get(record_id)` — the row with the
given primary key, or `None`. -/
def get_one_record (db : Session) (record_id : Nat) : Option NameRecord :=
  db.find? (fun r => r.id == record_id)

/-- Model of `_get_many`: coerce string criteria, then
`query.filter(*coerced).filter_by(**filters).offset(skip)` and, when a
limit is given, `.limit(limit)`. -/
def get_many_records (db : Session) (criterion : List Criterion) (skip : Nat)
    (limit : Option Nat) (filters : Filters) : List NameRecord :=
  let coerced := coerce_string_criteria criterion
  let query := ((db.filter (fun r => coerced.all (fun p => p r))).filter
      (fun r => filters.all (evalFilter r))).drop skip
  match limit with
  | some l => query.take l
  | none => query

/-- Model of `_create_one`: build the model instance from the DTO's fields, add it,
commit; the committed row carries the generated id. -/
def create_one_record (db : Session) (record : NameTestCreationDTO) :
    NameRecord × Session :=
  let r : NameRecord := ⟨next_id db, record.title⟩
  (r, db ++ [r])

/-- Model of `_create_many`: one bulk `insert` of the whole batch of `.dict()`s,
commit, and return the empty list (the inserted rows' generated ids are
not retrieved). -/
def create_many_records (db : Session) (records : List NameTestCreationDTO) :
    List NameRecord × Session :=
  let inserted := assign_ids (next_id db) records
  ([], db ++ inserted)

/-- Errors surfaced by the repository layer: the keyed-lookup `KeyError`
raised by `_update_one`/`_remove_one`, and the pydantic validation
failure raised when DTO construction from a record fails (for example
`from_orm(None)`). -/
inductive RepoError where
  | keyNotFound (record_id : Nat)
  | validationError
deriving DecidableEq, Repr

/-- Model of `_update_one`: fetch by primary key; raise `KeyError` when absent;
otherwise `setattr` every `(field, value)` yielded by iterating
`new_record` — the identity field included — then add and commit. -/
def update_one_record (db : Session) (record_id : Nat) (new_record : NameTestDTO) :
    Except RepoError (NameRecord × Session) :=
  match get_one_record db record_id with
  | none => .error (.keyNotFound record_id)
  | some r =>
    let updated := update_orm_instance r new_record.dict
    .ok (updated, db.map (fun x => if x.id == record_id then updated else x))

/-- Model of `_remove_one`: fetch by primary key; raise `KeyError` when absent;
otherwise delete the row and return it. -/
def remove_one_record (db : Session) (record_id : Nat) :
    Except RepoError (NameRecord × Session) :=
  match get_one_record db record_id with
  | none => .error (.keyNotFound record_id)
  | some r => .ok (r, db.filter (fun x => !(x.id == record_id)))

/-- Model of `_get_affected_records`: re-run the SELECT with the same coerced
criteria and filters, then, when `new_data` is given, merge it into each
selected record in place. -/
def get_affected_records (db : Session) (coerced : List (NameRecord → Bool))
    (new_data : Option (List (String × FieldVal))) (filters : Filters) :
    List NameRecord :=
  let affected := (db.filter (fun r => coerced.all (fun p => p r))).filter
      (fun r => filters.all (evalFilter r))
  match new_data with
  | some nd => affected.map (fun r => update_orm_instance r nd)
  | none => affected

/-- Model of `_update_many`: build the bulk UPDATE statement, compute the affected
records from the *current* (pre-mutation) state, then execute the
statement and commit. -/
def update_many_records (db : Session) (new_record : NameTestCreationDTO)
    (criterion : List Criterion) (filters : Filters) : List NameRecord × Session :=
  let coerced := coerce_string_criteria criterion
  let new_data := new_record.dict
  let affected_records := get_affected_records db coerced (some new_data) filters
  let db' := db.map (fun r =>
    if stmt_matches coerced filters r then update_orm_instance r new_data else r)
  (affected_records, db')

/-- Model of `_remove_many`: build the bulk DELETE statement, compute the affected
records from the *current* (pre-deletion) state, then execute and commit. -/
def remove_many_records (db : Session) (criterion : List Criterion)
    (filters : Filters) : List NameRecord × Session :=
  let coerced := coerce_string_criteria criterion
  let affected_records := get_affected_records db coerced none filters
  let db' := db.filter (fun r => !(stmt_matches coerced filters r))
  (affected_records, db')

end SQLAlchemyRepository

open SQLAlchemyRepository in
/-- Model of `_to_output_dto` = `NameTestDTO.from_orm(record)`: succeeds on a real
record; on `None` (the adapter's no-match result for `_get_one`) pydantic
raises a validation error, not a keyed-lookup error. -/
def to_output_dto : Option NameRecord → Except SQLAlchemyRepository.RepoError NameTestDTO
  | none => .error .validationError
  | some r => .ok ⟨r.id, r.title⟩

/-- Plain record-to-DTO conversion for records actually returned by the store. -/
def dto_of (r : NameRecord) : NameTestDTO := ⟨r.id, r.title⟩

/-! ## The public `Repository` layer (`lilly/repositories/base.py`)

Every public operation runs inside `with self._get_connection() as
connection:` — the context manager acquires one scoped session, the body
delegates to the store primitive and converts records to DTOs, and the
session is closed on every exit path (`__exit__` runs on normal return
and on exception alike). -/

/-- Connection lifecycle events of one public repository call. -/
inductive ConnEvent where
  | acquire
  | release
deriving DecidableEq, Repr

instance {ε α : Type} [DecidableEq ε] [DecidableEq α] : DecidableEq (Except ε α) := fun x y =>
  match x, y with
  | .ok a, .ok b =>
    if h : a = b then isTrue (by rw [h]) else isFalse (by intro hc; cases hc; exact h rfl)
  | .error e, .error f =>
    if h : e = f then isTrue (by rw [h]) else isFalse (by intro hc; cases hc; exact h rfl)
  | .ok _, .error _ => isFalse (by intro hc; cases hc)
  | .error _, .ok _ => isFalse (by intro hc; cases hc)

/-- Outcome of one public repository operation: the returned value or
propagated error, the store contents after the call, and the connection
events in order. -/
structure OpResult (α : Type) where
  result : Except SQLAlchemyRepository.RepoError α
  db : Session
  events : List ConnEvent
deriving DecidableEq, Repr

/-- The `with` statement over `DataSource.connect()`: `__enter__` acquires
the session, the body runs (possibly raising), and `__exit__` releases
the session on both exit paths; an uncaught error leaves the store
unchanged (the failing primitives fail before mutating). -/
def with_connection {α : Type} (db : Session)
    (body : Session → Except SQLAlchemyRepository.RepoError (α × Session)) : OpResult α :=
  match body db with
  | .ok (a, db') => ⟨.ok a, db', [.acquire, .release]⟩
  | .error e => ⟨.error e, db, [.acquire, .release]⟩

namespace Repository

open SQLAlchemyRepository

/-- Model of `Repository.get_one`: acquire, `_get_one`, convert, release. -/
def get_one (db : Session) (record_id : Nat) : OpResult NameTestDTO :=
  with_connection db (fun conn => do
    let record := get_one_record conn record_id
    let dto ← to_output_dto record
    pure (dto, conn))

/-- Model of `Repository.get_many`: acquire, `_get_many`, convert each record, release. -/
def get_many (db : Session) (criterion : List Criterion) (skip : Nat)
    (limit : Option Nat) (filters : Filters) : OpResult (List NameTestDTO) :=
  with_connection db (fun conn =>
    let records := get_many_records conn criterion skip limit filters
    .ok (records.map dto_of, conn))

/-- Model of `Repository.create_one`: acquire, `_create_one`, convert, release. -/
def create_one (db : Session) (record : NameTestCreationDTO) : OpResult NameTestDTO :=
  with_connection db (fun conn =>
    let (r, conn') := create_one_record conn record
    .ok (dto_of r, conn'))

/-- Model of `Repository.create_many`: acquire, `_create_many`, convert each, release. -/
def create_many (db : Session) (records : List NameTestCreationDTO) :
    OpResult (List NameTestDTO) :=
  with_connection db (fun conn =>
    let (rs, conn') := create_many_records conn records
    .ok (rs.map dto_of, conn'))

/-- Model of `Repository.update_one`: acquire, `_update_one` (may raise `KeyError`),
convert, release. -/
def update_one (db : Session) (record_id : Nat) (new_record : NameTestDTO) :
    OpResult NameTestDTO :=
  with_connection db (fun conn => do
    let (r, conn') ← update_one_record conn record_id new_record
    pure (dto_of r, conn'))

/-- Model of `Repository.update_many`: acquire, `_update_many`, convert each, release. -/
def update_many (db : Session) (new_record : NameTestCreationDTO)
    (criterion : List Criterion) (filters : Filters) : OpResult (List NameTestDTO) :=
  with_connection db (fun conn =>
    let (rs, conn') := update_many_records conn new_record criterion filters
    .ok (rs.map dto_of, conn'))

/-- Model of `Repository.remove_one`: acquire, `_remove_one` (may raise `KeyError`),
convert, release. -/
def remove_one (db : Session) (record_id : Nat) : OpResult NameTestDTO :=
  with_connection db (fun conn => do
    let (r, conn') ← remove_one_record conn record_id
    pure (dto_of r, conn'))

/-- Model of `Repository.remove_many`: acquire, `_remove_many`, convert each, release. -/
def remove_many (db : Session) (criterion : List Criterion) (filters : Filters) :
    OpResult (List NameTestDTO) :=
  with_connection db (fun conn =>
    let (rs, conn') := remove_many_records conn criterion filters
    .ok (rs.map dto_of, conn'))

end Repository

/-! ## CRUD route generation (`lilly/routing/_crud.py`) -/

/-- Drop characters belonging to `trimSet` from the end of the list. -/
def rstripDrop (cs trimSet : List Char) : List Char :=
  match cs with
  | [] => []
  | c :: t => if trimSet.contains c then rstripDrop t trimSet else cs

/-- Python's `str.rstrip(chars)`: strip every trailing character that is
a member of the given character set. -/
def rstrip_chars (s : String) (trimSet : List Char) : String :=
  String.mk ((rstripDrop s.data.reverse trimSet).reverse)

/-- Model of `_extract_sql_query_string`: for every searchable field append
`"{field} LIKE '%{q}%' OR"` to the accumulator, then `rstrip(" OR")`. -/
def extract_sql_query_string (fields : List String) (q : String) : String :=
  let str_search := fields.foldl
    (fun acc field => acc ++ field ++ " LIKE '%" ++ q ++ "%' OR") ""
  rstrip_chars str_search [' ', 'O', 'R']

namespace CRUDRouteSet

/-- Model of `string_searchable_fields` as configured in the repository's CRUD
settings (`test/assets/mock_services/crud/routes.py`). -/
def string_searchable_fields : List String := ["title"]

/-- Model of the `GET P/` handler `read_many(skip=0, limit=None, q=None)`: when `q` is
present compile it into the searchable-field criterion, then run the
read-many action, i.e. `Repository.get_many`. -/
def read_many (db : Session) (skip : Nat := 0) (limit : Option Nat := none)
    (q : Option String := none) : OpResult (List NameTestDTO) :=
  let criteria : List Criterion :=
    match q with
    | some qv => [Criterion.raw (extract_sql_query_string string_searchable_fields qv)]
    | none => []
  Repository.get_many db criteria skip limit []

/-- Model of the `PUT M/` handler `update_many(body, q="")`: compile `q` (default the
empty string) and run the update-many action. -/
def update_many (db : Session) (body : NameTestCreationDTO) (q : String := "") :
    OpResult (List NameTestDTO) :=
  let query := extract_sql_query_string string_searchable_fields q
  Repository.update_many db body [Criterion.raw query] []

/-- Model of the `DELETE M/` handler `delete_many(q="")`: compile `q` (default the
empty string) and run the delete-many action. -/
def delete_many (db : Session) (q : String := "") : OpResult (List NameTestDTO) :=
  let query := extract_sql_query_string string_searchable_fields q
  Repository.remove_many db [Criterion.raw query] []

end CRUDRouteSet

/-- HTTP verbs used by the generated CRUD endpoints. -/
inductive HttpMethod where
  | post
  | get
  | put
  | patch
  | delete
deriving DecidableEq, Repr

/-- One route as registered on the module-level `APIRouter`:
`cbv_processed` records whether the class-based-view pass rebound the
endpoint (injecting `self`); an unprocessed route keeps the raw function
with `self` as an ordinary request parameter. -/
structure Route where
  method : HttpMethod
  path : String
  handler : String
  cbv_processed : Bool
deriving DecidableEq, Repr

/-- Model of `CRUDRouteSetSettings`: the per-operation Action slots (modelled by
the optional name of the configured Action subclass) and the two base
paths. -/
structure CRUDRouteSetSettings where
  base_path : String
  base_path_for_multiple_items : String
  create_one_action : Option String := none
  create_many_action : Option String := none
  read_one_action : Option String := none
  read_many_action : Option String := none
  update_one_action : Option String := none
  update_many_action : Option String := none
  delete_one_action : Option String := none
  delete_many_action : Option String := none
deriving DecidableEq, Repr

/-- The nine decorated methods of the generated `_CRUDRouteSet` class, in
source order; evaluating the class body registers each of them on the
module-level router immediately. -/
def crud_decorated_routes (s : CRUDRouteSetSettings) : List Route :=
  [⟨.post, s.base_path ++ "/", "create_one", false⟩,
   ⟨.post, s.base_path_for_multiple_items ++ "/", "create_many", false⟩,
   ⟨.get, s.base_path ++ "/{record_id}", "read_one", false⟩,
   ⟨.get, s.base_path ++ "/", "read_many", false⟩,
   ⟨.put, s.base_path ++ "/{record_id}", "update_one", false⟩,
   ⟨.patch, s.base_path ++ "/{record_id}", "update_partial", false⟩,
   ⟨.put, s.base_path_for_multiple_items ++ "/", "update_many", false⟩,
   ⟨.delete, s.base_path ++ "/{record_id}", "delete_one", false⟩,
   ⟨.delete, s.base_path_for_multiple_items ++ "/", "delete_many", false⟩]

/-- The settings slot that `_remove_routes_for_undefined_actions`
consults for a given handler name (`update_one` and `update_partial` are
both governed by `update_one_action`). -/
def action_for_handler (s : CRUDRouteSetSettings) (h : String) : Option String :=
  if h = "create_one" then s.create_one_action
  else if h = "create_many" then s.create_many_action
  else if h = "read_one" then s.read_one_action
  else if h = "read_many" then s.read_many_action
  else if h = "update_one" ∨ h = "update_partial" then s.update_one_action
  else if h = "update_many" then s.update_many_action
  else if h = "delete_one" then s.delete_one_action
  else if h = "delete_many" then s.delete_many_action
  else none

/-- The state produced by `_generate_crud_route_set` just before the cbv
pass: the routes already registered on the module router, and the
handler methods still present on the class. -/
structure GeneratedRouteSet where
  router_routes : List Route
  class_methods : List String
deriving DecidableEq, Repr

/-- Model of `_generate_crud_route_set`: evaluating the class body registers all
nine routes on the router; `_remove_routes_for_undefined_actions` then
`delattr`s from the class every handler whose Action slot is `None` —
and touches nothing else: the router's route list is left as it is. -/
def generate_crud_route_set (s : CRUDRouteSetSettings) : GeneratedRouteSet :=
  let routes := crud_decorated_routes s
  let methods := routes.map (fun r => r.handler)
  let methods' := methods.filter (fun h => (action_for_handler s h).isSome)
  ⟨routes, methods'⟩

/-- The `fastapi_utils.cbv` pass applied by the `routeset` decorator
(modelled from that library's behaviour, an external collaborator): every
route on the router whose endpoint is a function member of the class is
removed from the router, rebound with `self` injected, and re-included at
the end; routes whose endpoints are no longer class members are left on
the router untouched. -/
def cbv_apply (g : GeneratedRouteSet) : List Route :=
  let kept := g.router_routes.filter (fun r => !(g.class_methods.contains r.handler))
  let moved := (g.router_routes.filter (fun r => g.class_methods.contains r.handler)).map
    (fun r => { r with cbv_processed := true })
  kept ++ moved

/-- The full routing surface the application serves for one CRUD route
set: `@routeset` = generate, delattr pass, cbv pass, and the router is
included into the app unchanged. -/
def routeset_surface (s : CRUDRouteSetSettings) : List Route :=
  cbv_apply (generate_crud_route_set s)

/-! ## `SQLAlchemyDataSource` lifecycle (`lilly/datasources/sqlalchemy.py`) -/

namespace SQLAlchemyDataSource

/-- The observable state of one `SQLAlchemyDataSource` instance together
with the class attribute it reads through: `class_flag` is
`SQLAlchemyDataSource._is_initialized` (the class attribute, `False` at
class creation and never assigned at class level), `inst_flag` the
shadowing instance attribute created by the first assignment to
`self._is_initialized`, `schema_created` whether this instance's engine
has the tables, and `init_runs` how many times `initialize_db` ran. -/
structure DSState where
  class_flag : Bool
  inst_flag : Option Bool
  schema_created : Bool
  init_runs : Nat
deriving DecidableEq, Repr

/-- Python attribute lookup for `self._is_initialized`: the instance
attribute when present, else the class attribute. -/
def read_is_initialized (s : DSState) : Bool :=
  s.inst_flag.getD s.class_flag

/-- Model of `initialize_db`: `metadata.create_all` (idempotent — creates only the
missing tables), then `self._is_initialized = True` (an instance
attribute write; the class attribute is untouched). -/
def initialize_db (s : DSState) : DSState :=
  { s with schema_created := true, inst_flag := some true, init_runs := s.init_runs + 1 }

/-- Model of `clear_db`: `metadata.drop_all`, then `self._is_initialized = False`. -/
def clear_db (s : DSState) : DSState :=
  { s with schema_created := false, inst_flag := some false }

/-- Model of `connect`: initialize lazily when the flag reads `False`, then hand
out a scoped session context manager. -/
def connect (s : DSState) : DSState :=
  if read_is_initialized s then s else initialize_db s

/-- One datasource instance's own state (the per-instance part of `DSState`). -/
structure DSInstance where
  inst_flag : Option Bool
  schema_created : Bool
  init_runs : Nat
deriving DecidableEq, Repr

/-- A process holding the one class attribute and two distinct
`SQLAlchemyDataSource` instances. -/
structure ProcState where
  class_flag : Bool
  inst1 : DSInstance
  inst2 : DSInstance
deriving DecidableEq, Repr

/-- Attribute lookup, instance attribute shadowing the class attribute. -/
def inst_read_flag (classFlag : Bool) (i : DSInstance) : Bool :=
  i.inst_flag.getD classFlag

/-- Model of `initialize_db` on one instance: the assignment
`self._is_initialized = True` creates the instance attribute and leaves
the class attribute alone. -/
def inst_initialize_db (i : DSInstance) : DSInstance :=
  { i with schema_created := true, inst_flag := some true, init_runs := i.init_runs + 1 }

/-- Model of `connect` on one instance. -/
def inst_connect (classFlag : Bool) (i : DSInstance) : DSInstance :=
  if inst_read_flag classFlag i then i else inst_initialize_db i

/-- Model of `connect` called on the first instance. -/
def proc_connect1 (p : ProcState) : ProcState :=
  { p with inst1 := inst_connect p.class_flag p.inst1 }

/-- Model of `connect` called on the second instance. -/
def proc_connect2 (p : ProcState) : ProcState :=
  { p with inst2 := inst_connect p.class_flag p.inst2 }

/-- A freshly started process: class attribute `False`, both instances
newly constructed (no instance attribute, no schema, no init runs). -/
def fresh_proc : ProcState :=
  ⟨false, ⟨none, false, 0⟩, ⟨none, false, 0⟩⟩

end SQLAlchemyDataSource

/-! ## Fixtures (`test/assets/mock_internals.py`, `MOCK_NAME_RECORDS`) -/

/-- The ten-record fixture: titles
Doe, Roe, Doe, Roe, Doe, Doe, Roe, Roe, Doe, Roe with ids 1–10. -/
def fixture_db : Session :=
  [⟨1, "Doe"⟩, ⟨2, "Roe"⟩, ⟨3, "Doe"⟩, ⟨4, "Roe"⟩, ⟨5, "Doe"⟩,
   ⟨6, "Doe"⟩, ⟨7, "Roe"⟩, ⟨8, "Roe"⟩, ⟨9, "Doe"⟩, ⟨10, "Roe"⟩]

/-- The criteria of the documented `get_many`/`update_many`/`remove_many`
scenario: the SQL expression `NameTest.id < 10` and the raw string
`"id > 2"`. -/
def fixture_criteria : List Criterion :=
  [.expr (fun r => decide (r.id < 10)), .raw "id > 2"]

/-- The filter set of the documented scenario: `title="Roe"`. -/
def fixture_filters : Filters := [("title", .strV "Roe")]

/-- Model of `.limit(l)` when a limit is given, the whole query set otherwise. -/
def take_opt {α : Type} (l : List α) : Option Nat → List α
  | some n => l.take n
  | none => l

/-- A CRUD settings object with every Action slot configured except
`delete_many_action = None` (the documented endpoint-removal scenario),
over the test-suite's paths. -/
def crud_demo_settings : CRUDRouteSetSettings :=
  { base_path := "/names"
    base_path_for_multiple_items := "/admin/names"
    create_one_action := some "CreateOneAction"
    create_many_action := some "CreateManyAction"
    read_one_action := some "ReadOneAction"
    read_many_action := some "ReadManyAction"
    update_one_action := some "UpdateOneAction"
    update_many_action := some "UpdateManyAction"
    delete_one_action := some "DeleteOneAction"
    delete_many_action := none }

/-! ## Helper lemmas -/

theorem filter_filter_and {α : Type} (l : List α) (p q : α → Bool) :
    (l.filter p).filter q = l.filter (fun a => p a && q a) := by
  induction l with
  | nil => rfl
  | cons h t ih => by_cases hp : p h <;> by_cases hq : q h <;>
      simp [List.filter_cons, hp, hq, ih]

theorem containsSeq_nil (cs : List Char) : containsSeq cs [] = true := by
  cases cs <;> simp [containsSeq, beginsWith, List.isEmpty]

theorem assign_ids_length (start : Nat) (l : List NameTestCreationDTO) :
    (SQLAlchemyRepository.assign_ids start l).length = l.length := by
  induction l generalizing start with
  | nil => rfl
  | cons d t ih => simp [SQLAlchemyRepository.assign_ids, ih]

theorem find_id_unique (db : Session) (record_id : Nat) (r : NameRecord)
    (hnd : (db.map (fun x => x.id)).Nodup) (hr : r ∈ db) (hid : r.id = record_id) :
    db.find? (fun x => x.id == record_id) = some r := by
  induction db with
  | nil => cases hr
  | cons h t ih =>
    rw [List.map_cons, List.nodup_cons] at hnd
    by_cases hh : h.id = record_id
    · have hfound : (h :: t).find? (fun x => x.id == record_id) = some h :=
        List.find?_cons_of_pos _ (by simp [hh])
      rcases List.mem_cons.mp hr with he | ht
      · rw [hfound, he]
      · exact absurd (List.mem_map.mpr ⟨r, ht, hid.trans hh.symm⟩) hnd.1
    · have hstep : (h :: t).find? (fun x => x.id == record_id) =
          t.find? (fun x => x.id == record_id) :=
        List.find?_cons_of_neg _ (by simp [hh])
      rcases List.mem_cons.mp hr with he | ht
      · exact absurd (he ▸ hid) hh
      · rw [hstep]; exact ih hnd.2 ht

theorem select_eq_stmt_filter (db : Session) (coerced : List (NameRecord → Bool))
    (filters : Filters) :
    (db.filter (fun r => coerced.all (fun p => p r))).filter
        (fun r => filters.all (evalFilter r)) =
      db.filter (SQLAlchemyRepository.stmt_matches coerced filters) := by
  rw [filter_filter_and]; rfl

theorem with_connection_events {α : Type} (db : Session)
    (body : Session → Except SQLAlchemyRepository.RepoError (α × Session)) :
    (with_connection db body).events = [.acquire, .release] := by
  unfold with_connection
  cases h : body db with
  | error e => simp
  | ok p => obtain ⟨a, db'⟩ := p; simp

/-! ## Claims -/

open SQLAlchemyRepository

/-- C1 counterexample: on a store holding only the record with id 1,
`get_one(5)` does not fail with the keyed-lookup NotFound error — the
adapter returns `None` and the DTO conversion fails with a validation
error, which is exactly the programming-error channel the claim
distinguishes NotFound from. -/
theorem get_one_missing_is_validation_error :
    (Repository.get_one [⟨1, "Doe"⟩] 5).result = .error .validationError
    ∧ RepoError.validationError ≠ RepoError.keyNotFound 5 := by
  exact ⟨by decide, by decide⟩

/-- C1 (amended): for every `record_id`, `get_one` returns the sole
matching record converted to an output DTO when a record with that id
exists; when the store adapter signals no match (returns `None`), the
call fails with the DTO-validation error arising from converting `None`
— not with a keyed-lookup NotFound error. -/
theorem get_one_policy (db : Session) (record_id : Nat) :
    ((∀ x ∈ db, x.id ≠ record_id) →
      (Repository.get_one db record_id).result = .error .validationError)
    ∧ (∀ r : NameRecord, (db.map (fun x => x.id)).Nodup → r ∈ db → r.id = record_id →
      (Repository.get_one db record_id).result = .ok ⟨record_id, r.title⟩) := by
  constructor
  · intro h
    have hn : get_one_record db record_id = none := by
      apply List.find?_eq_none.mpr
      intro x hx
      simp only [beq_iff_eq]
      exact h x hx
    simp [Repository.get_one, with_connection, hn, to_output_dto]
  · intro r hnd hr hid
    have hf : get_one_record db record_id = some r :=
      find_id_unique db record_id r hnd hr hid
    simp [Repository.get_one, with_connection, hf, to_output_dto, hid]

/-- C1 witness: both branches of the amended statement at concrete
inputs — `get_one 5` on a one-record store fails with the validation
error, `get_one 1` returns the matching DTO. -/
theorem get_one_policy_witness :
    (Repository.get_one [⟨1, "Doe"⟩] 5).result = .error .validationError
    ∧ (Repository.get_one [⟨1, "Doe"⟩] 1).result = .ok ⟨1, "Doe"⟩ :=
  ⟨(get_one_policy [⟨1, "Doe"⟩] 5).1 (by decide),
   (get_one_policy [⟨1, "Doe"⟩] 1).2 ⟨1, "Doe"⟩ (by decide) (by decide) (by decide)⟩

/-- C2: `_update_many` and `_remove_many` compute the affected set by
re-querying the pre-mutation state with the same coerced
criteria-and-filter predicate; `_update_many` returns that pre-mutation
snapshot with the new DTO's field values merged in, `_remove_many` the
pre-deletion snapshot of every deleted match; and on the ten-record
fixture the returned merged snapshot differs from what a post-update
re-read with the same predicate would give (the re-read is empty). -/
theorem update_remove_many_presnapshot (db : Session) (new_record : NameTestCreationDTO)
    (criterion : List Criterion) (filters : Filters) :
    (update_many_records db new_record criterion filters).1 =
      (db.filter (stmt_matches (coerce_string_criteria criterion) filters)).map
        (fun r => update_orm_instance r new_record.dict)
    ∧ (update_many_records db new_record criterion filters).2 =
      db.map (fun r =>
        if stmt_matches (coerce_string_criteria criterion) filters r then
          update_orm_instance r new_record.dict
        else r)
    ∧ (remove_many_records db criterion filters).1 =
      db.filter (stmt_matches (coerce_string_criteria criterion) filters)
    ∧ (remove_many_records db criterion filters).2 =
      db.filter (fun r => !(stmt_matches (coerce_string_criteria criterion) filters r))
    ∧ (update_many_records fixture_db ⟨"Rene"⟩ fixture_criteria fixture_filters).1 =
      [⟨4, "Rene"⟩, ⟨7, "Rene"⟩, ⟨8, "Rene"⟩]
    ∧ get_affected_records
        (update_many_records fixture_db ⟨"Rene"⟩ fixture_criteria fixture_filters).2
        (coerce_string_criteria fixture_criteria)
        (some (NameTestCreationDTO.dict ⟨"Rene"⟩)) fixture_filters = []
    ∧ (update_many_records fixture_db ⟨"Rene"⟩ fixture_criteria fixture_filters).1 ≠
      get_affected_records
        (update_many_records fixture_db ⟨"Rene"⟩ fixture_criteria fixture_filters).2
        (coerce_string_criteria fixture_criteria)
        (some (NameTestCreationDTO.dict ⟨"Rene"⟩)) fixture_filters := by
  refine ⟨?_, rfl, ?_, rfl, by decide, by decide, by decide⟩
  · simp only [update_many_records, get_affected_records]
    rw [select_eq_stmt_filter]
  · simp only [remove_many_records, get_affected_records]
    rw [select_eq_stmt_filter]

/-- C3: `get_many` returns exactly the records satisfying the AND of all
criteria (string criteria getting their raw-SQL semantics) and equality
filters, skipping the first `skip` matches and capped at `limit` (all
remaining when unset); at most `limit` records come back; and on the
ten-record fixture, `get_many(id<10, "id>2", skip=1, limit=2,
title="Roe")` returns exactly the DTOs `[{7, Roe}, {8, Roe}]`. -/
theorem get_many_semantics (db : Session) (criterion : List Criterion) (skip : Nat)
    (limit : Option Nat) (filters : Filters) :
    (Repository.get_many db criterion skip limit filters).result =
      .ok ((take_opt
        ((db.filter (stmt_matches (coerce_string_criteria criterion) filters)).drop skip)
        limit).map dto_of)
    ∧ (∀ n : Nat, (get_many_records db criterion skip (some n) filters).length ≤ n)
    ∧ Repository.get_many fixture_db fixture_criteria 1 (some 2) fixture_filters =
      ⟨.ok [⟨7, "Roe"⟩, ⟨8, "Roe"⟩], fixture_db, [.acquire, .release]⟩ := by
  refine ⟨?_, ?_, by decide⟩
  · have hq : get_many_records db criterion skip limit filters =
        take_opt
          ((db.filter (stmt_matches (coerce_string_criteria criterion) filters)).drop skip)
          limit := by
      cases limit with
      | none => simp only [get_many_records, take_opt]; rw [select_eq_stmt_filter]
      | some n => simp only [get_many_records, take_opt]; rw [select_eq_stmt_filter]
    simp [Repository.get_many, with_connection, hq]
  · intro n
    show ((((db.filter _).filter _).drop skip).take n).length ≤ n
    exact List.length_take_le n _

/-- C4: with `delete_many_action = None`, the delattr pass does remove
the handler from the generated class, but the `DELETE M/` route — having
been registered on the module router when the class body was evaluated —
stays on the served routing surface, merely skipped by the cbv rebinding
pass; the other eight endpoints are present and rebound. -/
theorem delete_many_route_not_removed :
    "delete_many" ∉ (generate_crud_route_set crud_demo_settings).class_methods
    ∧ Route.mk .delete "/admin/names/" "delete_many" false ∈
        routeset_surface crud_demo_settings
    ∧ routeset_surface crud_demo_settings =
      [⟨.delete, "/admin/names/", "delete_many", false⟩,
       ⟨.post, "/names/", "create_one", true⟩,
       ⟨.post, "/admin/names/", "create_many", true⟩,
       ⟨.get, "/names/{record_id}", "read_one", true⟩,
       ⟨.get, "/names/", "read_many", true⟩,
       ⟨.put, "/names/{record_id}", "update_one", true⟩,
       ⟨.patch, "/names/{record_id}", "update_partial", true⟩,
       ⟨.put, "/admin/names/", "update_many", true⟩,
       ⟨.delete, "/names/{record_id}", "delete_one", true⟩] := by
  exact ⟨by decide, by decide, by decide⟩

/-- C5: `_extract_sql_query_string` appends `" OR"` with no trailing
space, so the single-field output matches the documented predicate but
the multi-field output joins the clauses as `... OR` immediately
followed by the next field name (`ORid`), not the documented
`... OR id ...`. -/
theorem extract_sql_query_string_or_spacing :
    extract_sql_query_string ["title"] "doe" = "title LIKE '%doe%'"
    ∧ extract_sql_query_string ["title", "id"] "doe" =
        "title LIKE '%doe%' ORid LIKE '%doe%'"
    ∧ extract_sql_query_string ["title", "id"] "doe" ≠
        "title LIKE '%doe%' OR id LIKE '%doe%'" := by
  exact ⟨by decide, by decide, by decide⟩

/-- C6: `create_many` persists the whole batch (the store grows by
exactly the batch, rows carrying consecutively generated ids) and the
adapter primitive returns the empty list, so the public operation
returns the empty sequence of DTOs. -/
theorem create_many_bulk_empty (db : Session) (records : List NameTestCreationDTO) :
    (Repository.create_many db records).result = .ok []
    ∧ (create_many_records db records).1 = []
    ∧ (Repository.create_many db records).db = db ++ assign_ids (next_id db) records
    ∧ (Repository.create_many db records).db.length = db.length + records.length := by
  refine ⟨rfl, rfl, rfl, ?_⟩
  show (db ++ assign_ids (next_id db) records).length = db.length + records.length
  rw [List.length_append, assign_ids_length]

/-- C7: every public repository operation acquires exactly one scoped
connection and releases it before returning, on the error exit just as
on the normal one (the `update_one` clause over the empty store
exercises the raised-`KeyError` path), and converts every record the
primitive returns to an output DTO (`get_many` clause). -/
theorem repository_scoped_connection (db : Session) (record_id : Nat)
    (new_one : NameTestDTO) (new_many : NameTestCreationDTO)
    (record : NameTestCreationDTO) (records : List NameTestCreationDTO)
    (criterion : List Criterion) (skip : Nat) (limit : Option Nat) (filters : Filters) :
    (Repository.get_one db record_id).events = [.acquire, .release]
    ∧ (Repository.get_many db criterion skip limit filters).events = [.acquire, .release]
    ∧ (Repository.create_one db record).events = [.acquire, .release]
    ∧ (Repository.create_many db records).events = [.acquire, .release]
    ∧ (Repository.update_one db record_id new_one).events = [.acquire, .release]
    ∧ (Repository.update_many db new_many criterion filters).events = [.acquire, .release]
    ∧ (Repository.remove_one db record_id).events = [.acquire, .release]
    ∧ (Repository.remove_many db criterion filters).events = [.acquire, .release]
    ∧ (Repository.update_one [] record_id new_one).result = .error (.keyNotFound record_id)
    ∧ (Repository.update_one [] record_id new_one).events = [.acquire, .release]
    ∧ (Repository.get_many db criterion skip limit filters).result =
        .ok ((get_many_records db criterion skip limit filters).map dto_of) := by
  refine ⟨with_connection_events _ _, with_connection_events _ _,
    with_connection_events _ _, with_connection_events _ _,
    with_connection_events _ _, with_connection_events _ _,
    with_connection_events _ _, with_connection_events _ _,
    rfl, with_connection_events _ _, rfl⟩

open SQLAlchemyDataSource

/-- C8 counterexample: in one process in which no `clear_db` has run,
the first `connect` of a first datasource instance initializes, and the
very next `connect` of the process — on a second instance — initializes
again (the class attribute never became `True`): the "is initialized"
flag does not behave as process-wide state. -/
theorem is_initialized_not_process_wide :
    (proc_connect2 (proc_connect1 fresh_proc)).inst2.init_runs = 1
    ∧ (proc_connect1 fresh_proc).class_flag = false
    ∧ (proc_connect1 fresh_proc).inst1.init_runs = 1 := by
  exact ⟨by decide, by decide, by decide⟩

/-- C8 (amended): per datasource instance (the `True` write shadows the
class attribute with an instance attribute), schema initialization runs
lazily on the instance's first `connect` and on no later `connect`
(connect is idempotent), until an explicit `clear_db` resets the flag,
after which the next `connect` initializes again; initialization leaves
the schema created. -/
theorem datasource_lazy_init (s : DSState) :
    (read_is_initialized s = false →
      (connect s).init_runs = s.init_runs + 1 ∧ (connect s).schema_created = true)
    ∧ read_is_initialized (connect s) = true
    ∧ connect (connect s) = connect s
    ∧ (connect (clear_db s)).init_runs = (clear_db s).init_runs + 1
    ∧ (connect (clear_db s)).schema_created = true := by
  by_cases hf : s.inst_flag.getD s.class_flag = true <;>
    simp [connect, initialize_db, clear_db, read_is_initialized, hf]

/-- C8 witness: a freshly constructed datasource reads the flag as
`False` and its first `connect` runs the initialization once. -/
theorem datasource_lazy_init_witness :
    read_is_initialized (⟨false, none, false, 0⟩ : DSState) = false
    ∧ (connect (⟨false, none, false, 0⟩ : DSState)).init_runs = 0 + 1 :=
  ⟨by decide, ((datasource_lazy_init ⟨false, none, false, 0⟩).1 (by decide)).1⟩

/-- C9: on the multiple-items `PUT`/`DELETE` endpoints, an omitted `q`
defaults to the empty string, the compiled criterion for the configured
searchable field is `title LIKE '%%'`, that criterion matches every
record, so `delete_many` with no `q` deletes every record (returning
their pre-deletion DTOs) and `update_many` with no `q` updates every
record. -/
theorem crud_no_q_matches_everything (db : Session) (body : NameTestCreationDTO) :
    extract_sql_query_string CRUDRouteSet.string_searchable_fields "" = "title LIKE '%%'"
    ∧ (∀ r : NameRecord, evalTextClause "title LIKE '%%'" r = true)
    ∧ (CRUDRouteSet.delete_many db).result = .ok (db.map dto_of)
    ∧ (CRUDRouteSet.delete_many db).db = []
    ∧ (CRUDRouteSet.update_many db body).result =
        .ok (db.map (fun r => dto_of { r with title := body.title }))
    ∧ (CRUDRouteSet.update_many db body).db =
        db.map (fun r => { r with title := body.title }) := by
  have hlike : ∀ r : NameRecord, evalTextClause "title LIKE '%%'" r = true := by
    intro r
    show containsSeq r.title.data [] = true
    exact containsSeq_nil _
  have hq : extract_sql_query_string CRUDRouteSet.string_searchable_fields "" =
      "title LIKE '%%'" := by decide
  have hsel : ∀ l : Session,
      (l.filter (fun r =>
          (coerce_string_criteria [Criterion.raw "title LIKE '%%'"]).all
            (fun p => p r))).filter
        (fun r => ([] : Filters).all (evalFilter r)) = l := by
    intro l
    rw [List.filter_eq_self.mpr, List.filter_eq_self.mpr]
    · intro a _
      simp [coerce_string_criteria, Criterion.toPred, hlike a]
    · intro a _
      rfl
  have hrem : remove_many_records db [Criterion.raw "title LIKE '%%'"] [] = (db, []) := by
    unfold remove_many_records get_affected_records
    refine Prod.ext ?_ ?_
    · exact hsel db
    · refine List.filter_eq_nil_iff.mpr ?_
      intro a _
      simp [stmt_matches, coerce_string_criteria, Criterion.toPred, hlike a]
  have hmerge : ∀ r : NameRecord,
      update_orm_instance r (NameTestCreationDTO.dict body) =
        { r with title := body.title } := fun _ => rfl
  have hupd : update_many_records db body [Criterion.raw "title LIKE '%%'"] [] =
      (db.map (fun r => { r with title := body.title }),
       db.map (fun r => { r with title := body.title })) := by
    unfold update_many_records get_affected_records
    refine Prod.ext ?_ ?_
    · show ((db.filter _).filter _).map _ = _
      rw [hsel db]
      exact List.map_congr_left (fun a _ => hmerge a)
    · refine List.map_congr_left ?_
      intro a _
      simp [stmt_matches, coerce_string_criteria, Criterion.toPred, hlike a, hmerge a]
  refine ⟨hq, hlike, ?_, ?_, ?_, ?_⟩
  · simp [CRUDRouteSet.delete_many, hq, Repository.remove_many, with_connection, hrem]
  · simp [CRUDRouteSet.delete_many, hq, Repository.remove_many, with_connection, hrem]
  · simp [CRUDRouteSet.update_many, hq, Repository.update_many, with_connection, hupd]
  · simp [CRUDRouteSet.update_many, hq, Repository.update_many, with_connection, hupd]

/-- C10: `update_one` sets every field iterated from `new_record` onto
the stored record, the identity field included: when a record with
`record_id` exists and `new_record.id` differs from `record_id`, the
returned DTO and the stored row carry `new_record.id`, and no record
with the old `record_id` remains. -/
theorem update_one_sets_identity (db : Session) (record_id : Nat)
    (new_record : NameTestDTO) (r : NameRecord)
    (hr : get_one_record db record_id = some r) (hneq : new_record.id ≠ record_id) :
    (Repository.update_one db record_id new_record).result =
      .ok ⟨new_record.id, new_record.title⟩
    ∧ (Repository.update_one db record_id new_record).db =
      db.map (fun x =>
        if x.id == record_id then ⟨new_record.id, new_record.title⟩ else x)
    ∧ ∀ x ∈ (Repository.update_one db record_id new_record).db, x.id ≠ record_id := by
  have hupd : update_one_record db record_id new_record =
      .ok (⟨new_record.id, new_record.title⟩,
        db.map (fun x =>
          if x.id == record_id then ⟨new_record.id, new_record.title⟩ else x)) := by
    unfold update_one_record
    rw [hr]
    rfl
  have hres : (Repository.update_one db record_id new_record).result =
      .ok ⟨new_record.id, new_record.title⟩ := by
    simp [Repository.update_one, with_connection, hupd, dto_of]
  have hdb : (Repository.update_one db record_id new_record).db =
      db.map (fun x =>
        if x.id == record_id then ⟨new_record.id, new_record.title⟩ else x) := by
    simp [Repository.update_one, with_connection, hupd]
  refine ⟨hres, hdb, ?_⟩
  intro x hx
  rw [hdb] at hx
  obtain ⟨y, hy, hxy⟩ := List.mem_map.mp hx
  by_cases hc : (y.id == record_id) = true
  · rw [if_pos hc] at hxy
    rw [← hxy]
    exact hneq
  · rw [if_neg hc] at hxy
    rw [← hxy]
    exact fun he => hc (beq_iff_eq.mpr he)

/-- C10 witness: updating record 2 with a DTO carrying id 7 rewrites the
stored primary key to 7. -/
theorem update_one_sets_identity_witness :
    (Repository.update_one [⟨1, "Doe"⟩, ⟨2, "Roe"⟩] 2 ⟨7, "Foo"⟩).result =
      .ok ⟨7, "Foo"⟩ :=
  (update_one_sets_identity [⟨1, "Doe"⟩, ⟨2, "Roe"⟩] 2 ⟨7, "Foo"⟩ ⟨2, "Roe"⟩
    (by decide) (by decide)).1

end Lilly
